import Mathlib

/-!
Verification of the AI-powered tourism planner's orchestration core.

The Python source is embedded shallowly: pure processing steps become Lean
functions, external HTTP/LLM calls become `Except`-valued responses supplied
by an environment record, and Python truthiness on optional values is made
explicit. All definitions are translated from the repository sources
(`config.py`, `core_agents.py`, `orchestrator.py`).
-/

namespace Tourism

/-! ### config.py -/

/-- The `WEATHER_CODES` table from `config.py`, as an association list (Python dict). -/
def weatherTable : List (Int × String) :=
  [(0, "Clear sky ☀️"), (1, "Mainly clear 🌤️"), (2, "Partly cloudy ⛅"), (3, "Overcast ☁️"),
   (45, "Foggy 🌫️"), (48, "Depositing rime fog 🌫️"), (51, "Light drizzle 🌦️"),
   (53, "Moderate drizzle 🌦️"), (55, "Dense drizzle 🌧️"), (56, "Light freezing drizzle 🌨️"),
   (57, "Dense freezing drizzle 🌨️"), (61, "Slight rain 🌧️"), (63, "Moderate rain 🌧️"),
   (65, "Heavy rain ⛈️"), (66, "Light freezing rain 🌨️"), (67, "Heavy freezing rain 🌨️"),
   (71, "Slight snow 🌨️"), (73, "Moderate snow ❄️"), (75, "Heavy snow ❄️"),
   (77, "Snow grains 🌨️"), (80, "Slight rain showers 🌦️"), (81, "Moderate rain showers 🌧️"),
   (82, "Violent rain showers ⛈️"), (85, "Slight snow showers 🌨️"),
   (86, "Heavy snow showers ❄️"), (95, "Thunderstorm ⛈️"),
   (96, "Thunderstorm with slight hail ⛈️"), (99, "Thunderstorm with heavy hail ⛈️")]

/-- Dict lookup `WEATHER_CODES.get(weather_code)`: `none` for absent keys. -/
def WEATHER_CODES (c : Int) : Option String :=
  weatherTable.lookup c

/-- The method `WeatherAgent.get_weather_description` (`core_agents.py` lines 118-122):
`WEATHER_CODES.get(weather_code, f"Unknown ({weather_code})")`. -/
def getWeatherDescription (c : Int) : String :=
  (WEATHER_CODES c).getD ("Unknown (" ++ toString c ++ ")")

/-! ### GeocodingAgent (core_agents.py lines 19-76) -/

/-- One candidate object of the Nominatim geocoding response. The numeric
`lat`/`lon` payload values are abstracted as integers; `itemType` models
`item.get('type')`, which may be absent. -/
structure Candidate where
  lat : Int
  lon : Int
  display_name : String
  itemType : Option String
deriving DecidableEq

/-- The geolocation result dict built by `get_coordinates`. -/
structure GeoResult where
  lat : Int
  lon : Int
  display_name : String
deriving DecidableEq

/-- The preferred classification list from `core_agents.py` line 41. -/
def preferredTypes : List String :=
  ["city", "town", "village", "municipality", "administrative"]

/-- The test `item.get('type') in ['city', 'town', 'village', 'municipality', 'administrative']`;
a missing `type` key (Python `None`) is in no list. -/
def isPreferredType (item : Candidate) : Bool :=
  match item.itemType with
  | some t => preferredTypes.contains t
  | none => false

/-- The `for item in data` loop of `get_coordinates`: first candidate with a
preferred type, if any. -/
def findPreferred : List Candidate → Option Candidate
  | [] => none
  | item :: rest => if isPreferredType item then some item else findPreferred rest

/-- The result dict built from a chosen candidate. -/
def candidateResult (item : Candidate) : GeoResult :=
  { lat := item.lat, lon := item.lon, display_name := item.display_name }

/-- The method `GeocodingAgent.get_coordinates` applied to an already-parsed candidate
array (`core_agents.py` lines 38-66): prefer the first city-like candidate,
fall back to the first candidate, and return `None` for an empty array. -/
def getCoordinates (data : List Candidate) : Option GeoResult :=
  match data with
  | [] => none
  | first :: _ =>
    match findPreferred data with
    | some item => some (candidateResult item)
    | none => some (candidateResult first)

lemma findPreferred_eq_find? (data : List Candidate) :
    findPreferred data = data.find? isPreferredType := by
  induction data with
  | nil => rfl
  | cons a t ih =>
    simp only [findPreferred, List.find?]
    cases h : isPreferredType a <;> simp [h, ih]

/-! ### PlacesAgent (core_agents.py lines 132-239) -/

/-- The OSM tag mapping of one Overpass element; only the keys read by the
code are modeled, each optional (`tags.get(...)` returns `None` when absent).
`addrStreet` stands for the `addr:street` key. -/
structure Tags where
  name : Option String := none
  tourism : Option String := none
  historic : Option String := none
  leisure : Option String := none
  amenity : Option String := none
  website : Option String := none
  wikipedia : Option String := none
  addrStreet : Option String := none
deriving DecidableEq

/-- One element of the Overpass response: optional direct point coordinates
and an optional `center` object carrying centroid coordinates (both present
whenever the object is). Coordinates are abstracted as integers so that
Python truthiness (`0` is falsy) stays exact. -/
structure OsmElement where
  tags : Tags := {}
  lat : Option Int := none
  lon : Option Int := none
  center : Option (Int × Int) := none
deriving DecidableEq

/-- A `place_info` record built by `get_tourist_places`. -/
structure Place where
  name : String
  placeType : String
  tags : Tags
  address : String
  website : String
  wikipedia : String
  lat : Option Int
  lon : Option Int
deriving DecidableEq

/-- Python truthiness of an optional string: `None` and `""` are falsy. -/
def truthyStr : Option String → Bool
  | some s => s != ""
  | none => false

/-- Python truthiness of an optional numeric value: `None` and `0` are falsy. -/
def truthyNum : Option Int → Bool
  | some n => n != 0
  | none => false

/-- Python `a or b or c or default` over optional strings: the first truthy
value wins, otherwise the final default expression. -/
def pyOrChain : List (Option String) → String → String
  | [], dflt => dflt
  | o :: rest, dflt =>
    match o with
    | some s => if s != "" then s else pyOrChain rest dflt
    | none => pyOrChain rest dflt

/-- The `place_info` dict built at `core_agents.py` lines 193-211 for an
element whose name is `n`: a falsy direct latitude (absent or zero) together
with a present `center` object switches both coordinates to the centroid. -/
def placeInfo (e : OsmElement) (n : String) : Place :=
  let coords : Option Int × Option Int :=
    match e.center with
    | some c => if !truthyNum e.lat then (some c.1, some c.2) else (e.lat, e.lon)
    | none => (e.lat, e.lon)
  { name := n
    placeType :=
      pyOrChain [e.tags.tourism, e.tags.historic, e.tags.leisure]
        (e.tags.amenity.getD "attraction")
    tags := e.tags
    address := e.tags.addrStreet.getD ""
    website := e.tags.website.getD ""
    wikipedia := e.tags.wikipedia.getD ""
    lat := coords.1
    lon := coords.2 }

/-- The element loop of `get_tourist_places` (`core_agents.py` lines 188-213):
keep named elements, first occurrence of each name wins (`seen_names`). -/
def collectPlaces : List OsmElement → List String → List Place
  | [], _ => []
  | e :: rest, seen =>
    match e.tags.name with
    | some n =>
      if n != "" && !seen.contains n then
        placeInfo e n :: collectPlaces rest (n :: seen)
      else
        collectPlaces rest seen
    | none => collectPlaces rest seen

/-- The composite ranking key of `core_agents.py` lines 217-225. -/
def rank (p : Place) : Nat × Nat × Nat × Nat × Nat :=
  let t := p.tags
  ((if truthyStr t.wikipedia || truthyStr t.website then 0 else 1),
   (if (match t.tourism with
        | some s => ["museum", "gallery", "attraction", "viewpoint"].contains s
        | none => false) then 0 else 1),
   (if truthyStr t.historic then 0 else 1),
   (if (match t.leisure with
        | some s => ["park", "garden"].contains s
        | none => false) then 0 else 1),
   p.name.length)

/-- Lexicographic order on the 5-component rank tuples (Python tuple `<=`). -/
def lexLe5 : Nat × Nat × Nat × Nat × Nat → Nat × Nat × Nat × Nat × Nat → Bool
  | (a1, a2, a3, a4, a5), (b1, b2, b3, b4, b5) =>
    decide (a1 < b1) || (decide (a1 = b1) &&
      (decide (a2 < b2) || (decide (a2 = b2) &&
        (decide (a3 < b3) || (decide (a3 = b3) &&
          (decide (a4 < b4) || (decide (a4 = b4) && decide (a5 ≤ b5))))))))

/-- The comparator fed to the sort: `rank p ≤ rank q`. -/
def rankLe (p q : Place) : Bool := lexLe5 (rank p) (rank q)

/-- The method `PlacesAgent.get_tourist_places` applied to an already-parsed element
array (`core_agents.py` lines 185-229): dedup by name, and when more than
`limit` places remain, rank ascending (Python `sorted` is a stable merge
sort) and truncate to `limit`. -/
def getTouristPlacesFrom (elements : List OsmElement) (limit : Nat) : List Place :=
  let places := collectPlaces elements []
  if limit < places.length then (places.mergeSort rankLe).take limit else places

/-- The whole client including the catch-and-degrade wrapper
(`core_agents.py` lines 231-239): any failure yields the empty list. -/
def getTouristPlaces (resp : Except String (List OsmElement)) (limit : Nat) : List Place :=
  match resp with
  | .ok elements => getTouristPlacesFrom elements limit
  | .error _ => []

lemma lexLe5_iff (a b : Nat × Nat × Nat × Nat × Nat) :
    lexLe5 a b = true ↔
      (a.1 < b.1 ∨ (a.1 = b.1 ∧
        (a.2.1 < b.2.1 ∨ (a.2.1 = b.2.1 ∧
          (a.2.2.1 < b.2.2.1 ∨ (a.2.2.1 = b.2.2.1 ∧
            (a.2.2.2.1 < b.2.2.2.1 ∨ (a.2.2.2.1 = b.2.2.2.1 ∧
              a.2.2.2.2 ≤ b.2.2.2.2)))))))) := by
  obtain ⟨a1, a2, a3, a4, a5⟩ := a
  obtain ⟨b1, b2, b3, b4, b5⟩ := b
  simp [lexLe5]

lemma rankLe_trans (p q r : Place) (hpq : rankLe p q = true) (hqr : rankLe q r = true) :
    rankLe p r = true := by
  rw [rankLe, lexLe5_iff] at hpq hqr ⊢
  omega

lemma rankLe_total (p q : Place) : (rankLe p q || rankLe q p) = true := by
  rw [Bool.or_eq_true, rankLe, rankLe, lexLe5_iff, lexLe5_iff]
  omega

lemma collectPlaces_nodup_aux :
    ∀ (l : List OsmElement) (seen : List String),
      ((collectPlaces l seen).map Place.name).Nodup ∧
      ∀ p ∈ collectPlaces l seen, ¬ p.name ∈ seen := by
  intro l
  induction l with
  | nil => intro seen; simp [collectPlaces]
  | cons e rest ih =>
    intro seen
    rw [collectPlaces]
    cases hn : e.tags.name with
    | none => exact ih seen
    | some n =>
      dsimp only
      by_cases hc : (n != "" && !seen.contains n) = true
      · rw [if_pos hc]
        obtain ⟨hnd, hns⟩ := ih (n :: seen)
        have hname : (placeInfo e n).name = n := rfl
        constructor
        · rw [List.map_cons, List.nodup_cons, hname]
          refine ⟨?_, hnd⟩
          intro hmem
          obtain ⟨p, hp, hpn⟩ := List.mem_map.mp hmem
          exact hns p hp (hpn ▸ List.mem_cons_self n seen)
        · intro p hp
          rcases List.mem_cons.mp hp with heq | htail
          · rw [heq, hname]
            have := (Bool.and_eq_true _ _).mp hc
            intro habs
            rw [Bool.not_eq_true', ← Bool.not_eq_true] at this
            exact this.2 (List.elem_eq_true_of_mem habs)
          · intro habs
            exact hns p htail (List.mem_cons_of_mem n habs)
      · rw [if_neg hc]
        exact ih seen

lemma collectPlaces_mem :
    ∀ (l : List OsmElement) (seen : List String) (p : Place),
      p ∈ collectPlaces l seen →
      ∃ e ∈ l, ∃ n, e.tags.name = some n ∧ p = placeInfo e n := by
  intro l
  induction l with
  | nil => intro seen p hp; simp [collectPlaces] at hp
  | cons e rest ih =>
    intro seen p hp
    rw [collectPlaces] at hp
    cases hn : e.tags.name with
    | none =>
      rw [hn] at hp
      obtain ⟨e2, he2, n, hn2, hpe⟩ := ih seen p hp
      exact ⟨e2, List.mem_cons_of_mem e he2, n, hn2, hpe⟩
    | some n =>
      rw [hn] at hp
      dsimp only at hp
      by_cases hc : (n != "" && !seen.contains n) = true
      · rw [if_pos hc] at hp
        rcases List.mem_cons.mp hp with heq | htail
        · exact ⟨e, List.mem_cons_self e rest, n, hn, heq⟩
        · obtain ⟨e2, he2, n2, hn2, hpe⟩ := ih (n :: seen) p htail
          exact ⟨e2, List.mem_cons_of_mem e he2, n2, hn2, hpe⟩
      · rw [if_neg hc] at hp
        obtain ⟨e2, he2, n2, hn2, hpe⟩ := ih seen p hp
        exact ⟨e2, List.mem_cons_of_mem e he2, n2, hn2, hpe⟩

/-! ### Theorems for claims C4 and C5 -/

lemma weatherTable_values_ne_empty : ∀ p ∈ weatherTable, p.2 ≠ "" := by decide

lemma lookup_mem {l : List (Int × String)} {k : Int} {v : String}
    (h : l.lookup k = some v) : (k, v) ∈ l := by
  induction l with
  | nil => simp [List.lookup] at h
  | cons a t ih =>
    obtain ⟨a1, a2⟩ := a
    simp only [List.lookup] at h
    cases hk : k == a1 with
    | true =>
      rw [hk] at h
      cases h
      have hk2 : k = a1 := beq_iff_eq.mp hk
      subst hk2
      exact List.mem_cons_self _ _
    | false =>
      rw [hk] at h
      exact List.mem_cons_of_mem _ (ih h)

/-- C4: `get_weather_description` is total: every integer code yields a
non-empty string; codes in the `WEATHER_CODES` table yield that table's label,
and codes outside it yield the fallback label, which contains the code's
numeral between the fixed pieces "Unknown (" and ")". -/
theorem weather_description_total (c : Int) :
    getWeatherDescription c ≠ "" ∧
    getWeatherDescription c =
      (match WEATHER_CODES c with
       | some d => d
       | none => "Unknown (" ++ toString c ++ ")") ∧
    (WEATHER_CODES c = none →
      ∃ pre post, getWeatherDescription c = pre ++ toString c ++ post) := by
  refine ⟨?_, ?_, ?_⟩
  · cases h : WEATHER_CODES c with
    | none =>
      simp only [getWeatherDescription, h, Option.getD_none]
      intro hempty
      have hlen := congrArg String.length hempty
      rw [String.length_append, String.length_append] at hlen
      have h9 : ("Unknown (" : String).length = 9 := rfl
      have h1 : (")" : String).length = 1 := rfl
      have h0 : ("" : String).length = 0 := rfl
      omega
    | some d =>
      simp only [getWeatherDescription, h, Option.getD_some]
      exact weatherTable_values_ne_empty (c, d) (lookup_mem h)
  · cases h : WEATHER_CODES c <;> simp [getWeatherDescription, h]
  · intro h
    exact ⟨"Unknown (", ")", by simp [getWeatherDescription, h]⟩

/-- Witness for C4: the fallback branch at the concrete out-of-table code 4. -/
theorem weather_description_total_witness :
    ∃ pre post, getWeatherDescription 4 = pre ++ toString (4 : Int) ++ post :=
  (weather_description_total 4).2.2 rfl

/-- C5: on a non-empty candidate array `get_coordinates` returns the
coordinates and display name of the first candidate whose type is preferred
(city/town/village/municipality/administrative); with no such candidate it
returns those of the first candidate; on an empty array it returns `none`. -/
theorem geocoding_selection_policy (data : List Candidate) :
    (data = [] → getCoordinates data = none) ∧
    (∀ item, data.find? isPreferredType = some item →
      getCoordinates data = some (candidateResult item)) ∧
    (data.find? isPreferredType = none →
      ∀ first rest, data = first :: rest →
        getCoordinates data = some (candidateResult first)) := by
  refine ⟨?_, ?_, ?_⟩
  · intro h; rw [h]; rfl
  · intro item h
    cases data with
    | nil => simp [List.find?] at h
    | cons a t =>
      simp only [getCoordinates, findPreferred_eq_find?, h]
  · intro h first rest hdata
    subst hdata
    simp only [getCoordinates, findPreferred_eq_find?, h]

/-- Witness for C5: a concrete two-candidate array whose second candidate is
city-typed; `get_coordinates` picks the second. -/
theorem geocoding_selection_policy_witness :
    getCoordinates
      [{ lat := 1, lon := 2, display_name := "Somewhere", itemType := some "hotel" },
       { lat := 3, lon := 4, display_name := "Paris, France", itemType := some "city" }] =
    some { lat := 3, lon := 4, display_name := "Paris, France" } :=
  (geocoding_selection_policy _).2.1
    { lat := 3, lon := 4, display_name := "Paris, France", itemType := some "city" }
    (by decide)

/-! ### String helpers modelling Python primitives

All text processing is done structurally over `List Char` so that concrete
inputs evaluate inside the kernel. ASCII semantics are used for case mapping
and whitespace, which is what the repository's inputs exercise. -/

/-- Python `\s` (ASCII part): space, tab, newline, carriage return, form
feed, vertical tab. -/
def wsChar (c : Char) : Bool :=
  c == ' ' || c == Char.ofNat 9 || c == Char.ofNat 10 || c == Char.ofNat 13 ||
  c == Char.ofNat 12 || c == Char.ofNat 11

/-- Strip characters satisfying `p` from both ends (Python `str.strip`). -/
def stripList (p : Char → Bool) (l : List Char) : List Char :=
  ((l.dropWhile p).reverse.dropWhile p).reverse

/-- Python `str.strip()` (whitespace). -/
def pyStrip (s : String) : String := String.mk (stripList wsChar s.toList)

/-- Python `str.strip(ch)` for a single-character argument. -/
def pyStripChar (ch : Char) (s : String) : String :=
  String.mk (stripList (· == ch) s.toList)

/-- Python `str.lower()` (ASCII case mapping). -/
def pyLower (s : String) : String := String.mk (s.toList.map Char.toLower)

/-- Python `str.split()` with no argument: split on whitespace runs,
discarding empty fragments. `acc` holds the current word reversed. -/
def splitWsAux : List Char → List Char → List (List Char)
  | [], acc => if acc.isEmpty then [] else [acc.reverse]
  | c :: cs, acc =>
    if wsChar c then
      if acc.isEmpty then splitWsAux cs [] else acc.reverse :: splitWsAux cs []
    else splitWsAux cs (c :: acc)

/-- Python `str.split()` on a string. -/
def pySplit (s : String) : List String := (splitWsAux s.toList []).map String.mk

/-- Python `' '.join(words)`. -/
def joinSpace : List String → String
  | [] => ""
  | [w] => w
  | w :: rest => w ++ " " ++ joinSpace rest

/-! ### Regex model for extract_place_name (orchestrator.py lines 57-88)

The four Python patterns are applied with `re.IGNORECASE` and use only
single-character classes under quantifiers, alternation, one capturing group
each, and the `^`/`$` anchors. The matcher reproduces Python's backtracking
preference order: alternatives left to right, greedy quantifiers longest
first, lazy quantifiers shortest first, and `re.search` scanning start
positions left to right. -/

/-- Regular-expression fragments used by the four patterns. -/
inductive Pat where
  | lit : String → Pat
  | cls : (Char → Bool) → Pat
  | plusGreedy : (Char → Bool) → Pat
  | plusLazy : (Char → Bool) → Pat
  | starGreedy : (Char → Bool) → Pat
  | seq : Pat → Pat → Pat
  | alt : Pat → Pat → Pat
  | group : Pat → Pat
  | lineEnd : Pat

/-- Case-insensitive character comparison (`re.IGNORECASE`, ASCII). -/
def charCI (a b : Char) : Bool := a.toLower == b.toLower

/-- Match a literal case-insensitively; return the rest on success. -/
def matchLit : List Char → List Char → Option (List Char)
  | [], input => some input
  | _ :: _, [] => none
  | p :: ps, c :: cs => if charCI p c then matchLit ps cs else none

/-- Length of the maximal prefix run of characters satisfying `p`. -/
def runLen (p : Char → Bool) : List Char → Nat
  | [] => 0
  | c :: cs => if p c then runLen p cs + 1 else 0

/-- Rests after consuming `hi, hi-1, ..., lo` characters (greedy order). -/
def dropsDesc (input : List Char) (lo hi : Nat) : List (List Char) :=
  (List.range (hi + 1 - lo)).map (fun i => input.drop (hi - i))

/-- Rests after consuming `lo, lo+1, ..., hi` characters (lazy order). -/
def dropsAsc (input : List Char) (lo hi : Nat) : List (List Char) :=
  (List.range (hi + 1 - lo)).map (fun i => input.drop (lo + i))

/-- All ways to match a fragment at the head of the input, in backtracking
preference order, each as (captured group contents, rest of input). -/
def matchPat : Pat → List Char → List (Option (List Char) × List Char)
  | .lit s, input =>
    match matchLit s.toList input with
    | some rest => [(none, rest)]
    | none => []
  | .cls p, input =>
    match input with
    | c :: cs => if p c then [(none, cs)] else []
    | [] => []
  | .plusGreedy p, input => (dropsDesc input 1 (runLen p input)).map (fun r => (none, r))
  | .plusLazy p, input => (dropsAsc input 1 (runLen p input)).map (fun r => (none, r))
  | .starGreedy p, input => (dropsDesc input 0 (runLen p input)).map (fun r => (none, r))
  | .seq p q, input =>
    (matchPat p input).flatMap (fun pr =>
      (matchPat q pr.2).map (fun qr => (pr.1 <|> qr.1, qr.2)))
  | .alt p q, input => matchPat p input ++ matchPat q input
  | .group p, input =>
    (matchPat p input).map (fun pr =>
      (some (input.take (input.length - pr.2.length)), pr.2))
  | .lineEnd, input =>
    if input.isEmpty then [(none, input)]
    else if input == [Char.ofNat 10] then [(none, input)] else []

/-- The `re.search` position scan: first start position (left to right) at which
the pattern matches; yields the first match's captured group. -/
def searchPositions (p : Pat) : List Char → Option (Option (List Char))
  | [] => ((matchPat p []).head?).map Prod.fst
  | input@(_ :: rest) =>
    match (matchPat p input).head? with
    | some r => some r.1
    | none => searchPositions p rest

/-- Python `re.search(pattern, input, re.IGNORECASE)` followed by `match.group(1)`.
An anchored pattern (leading `^`) matches at position 0 only. Every pattern
below binds its group whenever it matches, so a capture-less match (mapped to
`none`) does not occur. -/
def reSearchGroup1 (anchored : Bool) (p : Pat) (input : String) : Option String :=
  let chars := input.toList
  let found :=
    if anchored then ((matchPat p chars).head?).map Prod.fst
    else searchPositions p chars
  match found with
  | some (some cap) => some (String.mk cap)
  | some none => none
  | none => none

/-- Class `[A-Z]` under `re.IGNORECASE`: any ASCII letter. -/
def upperCI (c : Char) : Bool := c.isUpper || c.isLower

/-- Class `[a-zA-Z\s]`. -/
def nameChar (c : Char) : Bool := c.isUpper || c.isLower || wsChar c

/-- Dot class: any character except newline. -/
def dotChar (c : Char) : Bool := c != Char.ofNat 10

/-- Right-nested sequence of fragments. -/
def seqList : List Pat → Pat
  | [] => .lit ""
  | [p] => p
  | p :: rest => .seq p (seqList rest)

/-- Left-to-right alternation of fragments. -/
def altList : List Pat → Pat
  | [] => .lit ""
  | [p] => p
  | p :: rest => .alt p (altList rest)

/-- The capturing group `([A-Z][a-zA-Z\s]+?)` shared by all four patterns. -/
def placeGroup : Pat := .group (seqList [.cls upperCI, .plusLazy nameChar])

/-- Pattern 1:
`(?:going to|visit|plan.*trip to|travel to|in)\s+([A-Z][a-zA-Z\s]+?)(?:\s*[,\.]|$|\s+(?:let|what|and|for))`. -/
def pattern1 : Pat :=
  seqList
    [altList [.lit "going to", .lit "visit",
              seqList [.lit "plan", .starGreedy dotChar, .lit "trip to"],
              .lit "travel to", .lit "in"],
     .plusGreedy wsChar,
     placeGroup,
     altList [seqList [.starGreedy wsChar, .cls (fun c => c == ',' || c == '.')],
              .lineEnd,
              seqList [.plusGreedy wsChar,
                       altList [.lit "let", .lit "what", .lit "and", .lit "for"]]]]

/-- Pattern 2: `weather in\s+([A-Z][a-zA-Z\s]+?)(?:\s*[,\.\?]|$)`. -/
def pattern2 : Pat :=
  seqList
    [.lit "weather in", .plusGreedy wsChar, placeGroup,
     altList [seqList [.starGreedy wsChar, .cls (fun c => c == ',' || c == '.' || c == '?')],
              .lineEnd]]

/-- Pattern 3: `places (?:in|to visit in)\s+([A-Z][a-zA-Z\s]+?)(?:\s*[,\.\?]|$)`. -/
def pattern3 : Pat :=
  seqList
    [.lit "places ", altList [.lit "in", .lit "to visit in"], .plusGreedy wsChar,
     placeGroup,
     altList [seqList [.starGreedy wsChar, .cls (fun c => c == ',' || c == '.' || c == '?')],
              .lineEnd]]

/-- Pattern 4: `^([A-Z][a-zA-Z\s]+?)(?:\s+weather|places|trip|itinerary)`
(the alternation groups as `(\s+weather)|places|trip|itinerary`). -/
def pattern4 : Pat :=
  seqList
    [placeGroup,
     altList [seqList [.plusGreedy wsChar, .lit "weather"],
              .lit "places", .lit "trip", .lit "itinerary"]]

/-- The pattern list of `extract_place_name`, each with its anchoring flag. -/
def patternList : List (Bool × Pat) :=
  [(false, pattern1), (false, pattern2), (false, pattern3), (true, pattern4)]

/-- Strategy 1 of `extract_place_name`: the `for pattern in patterns` loop,
returning `match.group(1).strip()` for the first pattern that matches. -/
def tryPatterns : List (Bool × Pat) → String → Option String
  | [], _ => none
  | (anch, p) :: rest, input =>
    match reSearchGroup1 anch p input with
    | some cap => some (pyStrip cap)
    | none => tryPatterns rest input

/-- The stop-word list of `extract_place_name` strategy 2. -/
def stopWords : List String :=
  ["i", "i'm", "going", "to", "what", "let", "plan", "my", "trip", "the"]

/-- Strategy 2: capitalized words of the query, stop words excluded. -/
def capitalizedWords (input : String) : List String :=
  (pySplit input).filter
    (fun w => w != "" &&
      (match w.toList with | c :: _ => c.isUpper | [] => false) &&
      !stopWords.contains (pyLower w))

/-- The method `TourismOrchestrator.extract_place_name` (orchestrator.py lines 57-88):
regex patterns first, then joined capitalized words, else the raw input. -/
def extract_place_name (input : String) : String :=
  match tryPatterns patternList input with
  | some place => place
  | none =>
    let caps := capitalizedWords input
    if !caps.isEmpty then joinSpace caps else input

/-! ### Fallback query understanding (orchestrator.py lines 154-183) -/

/-- The structured analysis dict; each field is optional because the
LLM-parsed dict may omit keys (`query_analysis.get(...)` in the caller). -/
structure QueryAnalysis where
  place : Option String
  intents : Option (List String)
  days : Option Nat
  is_valid : Option Bool
deriving DecidableEq

/-- The greeting word list of the fallback branch. -/
def greetingWords : List String :=
  ["hi", "hello", "hey", "thanks", "thank you", "bye", "goodbye"]

/-- The fallback branch of `understand_query`, taken when the LLM reply
cannot be parsed (both `except` paths are verbatim identical). -/
def fallbackUnderstand (user_input : String) : QueryAnalysis :=
  let place := extract_place_name user_input
  let isGreeting := greetingWords.contains (pyStrip (pyLower user_input))
  { place := if isGreeting then none else some place
    intents := some (if isGreeting then ["greeting"] else ["weather", "places"])
    days := some 1
    is_valid := some (!isGreeting && place != "") }

/-! ### Theorems for claims C1 and C8 -/

/-- C1: whenever the deduplicated named elements of a points-of-interest
response number strictly more than `limit`, `get_tourist_places` returns
exactly `limit` places, with pairwise-distinct names, sorted ascending by the
composite rank key; in particular every returned entry with a
wikipedia/website reference precedes or ties (via the rank key) with every
entry lacking one. -/
theorem poi_rank_trim (elements : List OsmElement) (limit : Nat)
    (h : limit < (collectPlaces elements []).length) :
    (getTouristPlaces (Except.ok elements) limit).length = limit ∧
    ((getTouristPlaces (Except.ok elements) limit).map Place.name).Nodup ∧
    (getTouristPlaces (Except.ok elements) limit).Pairwise (fun p q => rankLe p q = true) ∧
    (∀ p ∈ getTouristPlaces (Except.ok elements) limit,
      ∀ q ∈ getTouristPlaces (Except.ok elements) limit,
        (truthyStr p.tags.wikipedia || truthyStr p.tags.website) = true →
        (truthyStr q.tags.wikipedia || truthyStr q.tags.website) = false →
        rankLe p q = true) := by
  have hres : getTouristPlaces (Except.ok elements) limit =
      ((collectPlaces elements []).mergeSort rankLe).take limit := by
    simp only [getTouristPlaces, getTouristPlacesFrom]
    rw [if_pos h]
  refine ⟨?_, ?_, ?_, ?_⟩
  · rw [hres, List.length_take, List.length_mergeSort]
    omega
  · rw [hres]
    have hperm := List.mergeSort_perm (collectPlaces elements []) rankLe
    have hnd : (((collectPlaces elements []).mergeSort rankLe).map Place.name).Nodup :=
      ((hperm.map Place.name).nodup_iff).mpr (collectPlaces_nodup_aux elements []).1
    exact List.Sublist.nodup ((List.take_sublist _ _).map Place.name) hnd
  · rw [hres]
    have hs := List.sorted_mergeSort rankLe_trans rankLe_total (collectPlaces elements [])
    exact hs.sublist (List.take_sublist _ _)
  · intro p _ q _ hrefp hrefq
    rw [rankLe, lexLe5_iff]
    have h1 : (rank p).1 = 0 := by simp [rank, hrefp]
    have h2 : (rank q).1 = 1 := by simp [rank, hrefq]
    omega

/-- Demo response for the C1 witness: two deduplicated named elements. -/
def demoElements : List OsmElement :=
  [{ tags := { name := some "Central City Museum of History" } },
   { tags := { name := some "Eiffel Tower", wikipedia := some "fr:Tour Eiffel" } }]

/-- Witness for C1 at a concrete response of two named elements and limit 1. -/
theorem poi_rank_trim_witness :
    1 < (collectPlaces demoElements []).length ∧
    ((getTouristPlaces (Except.ok demoElements) 1).length = 1 ∧
     ((getTouristPlaces (Except.ok demoElements) 1).map Place.name).Nodup ∧
     (getTouristPlaces (Except.ok demoElements) 1).Pairwise (fun p q => rankLe p q = true) ∧
     (∀ p ∈ getTouristPlaces (Except.ok demoElements) 1,
       ∀ q ∈ getTouristPlaces (Except.ok demoElements) 1,
         (truthyStr p.tags.wikipedia || truthyStr p.tags.website) = true →
         (truthyStr q.tags.wikipedia || truthyStr q.tags.website) = false →
         rankLe p q = true)) :=
  ⟨by decide, poi_rank_trim demoElements 1 (by decide)⟩

/-- An Overpass element whose direct latitude is exactly 0 while carrying a
centroid: Python `if not lat_coord` treats the 0 latitude as absent. -/
def zeroLatElement : OsmElement :=
  { tags := { name := some "Equator Monument" }, lat := some 0, lon := some 5,
    center := some (7, 8) }

/-- Counterexample for C8 as stated: `zeroLatElement` has a direct point
coordinate (`lat = 0`), yet `get_tourist_places` replaces both coordinates by
the centroid's, so the direct coordinate is not kept unchanged. -/
theorem poi_centroid_counterexample :
    zeroLatElement.lat = some 0 ∧ zeroLatElement.lon = some 5 ∧
    (getTouristPlaces (Except.ok [zeroLatElement]) 8).map Place.lat = [some 7] ∧
    (getTouristPlaces (Except.ok [zeroLatElement]) 8).map Place.lon = [some 8] := by
  decide

/-- C8 amended: a place record lacking a direct latitude takes the centroid's
coordinates when a `center` is present; a direct coordinate is kept unchanged
whenever the latitude is nonzero (a zero latitude is falsy in Python and
falls back to the centroid, as the counterexample shows). Every place
returned by `get_tourist_places` is the record of one of its elements. -/
theorem poi_centroid_substitution :
    (∀ (e : OsmElement) (n : String),
      (e.lat = none → ∀ c : Int × Int, e.center = some c →
        (placeInfo e n).lat = some c.1 ∧ (placeInfo e n).lon = some c.2) ∧
      (∀ a : Int, e.lat = some a → a ≠ 0 →
        (placeInfo e n).lat = some a ∧ (placeInfo e n).lon = e.lon)) ∧
    (∀ (elements : List OsmElement) (limit : Nat) (p : Place),
      p ∈ getTouristPlaces (Except.ok elements) limit →
      ∃ e ∈ elements, ∃ n, e.tags.name = some n ∧ p = placeInfo e n) := by
  constructor
  · intro e n
    constructor
    · intro hlat c hcen
      simp [placeInfo, hcen, hlat, truthyNum]
    · intro a hlat ha
      cases hcen : e.center with
      | none => simp [placeInfo, hcen, hlat]
      | some c =>
        have htr : truthyNum (some a) = true := by simp [truthyNum, ha]
        simp [placeInfo, hcen, hlat, htr]
  · intro elements limit p hp
    simp only [getTouristPlaces, getTouristPlacesFrom] at hp
    by_cases hlen : limit < (collectPlaces elements []).length
    · rw [if_pos hlen] at hp
      have hp2 : p ∈ (collectPlaces elements []).mergeSort rankLe :=
        (List.take_sublist _ _).mem hp
      exact collectPlaces_mem elements [] p
        ((List.mergeSort_perm (collectPlaces elements []) rankLe).mem_iff.mp hp2)
    · rw [if_neg hlen] at hp
      exact collectPlaces_mem elements [] p hp

/-- An element with no direct coordinates but a centroid, for the C8 witness. -/
def centerOnlyElement : OsmElement :=
  { tags := { name := some "City Park" }, center := some (3, 4) }

/-- Witness for C8's amended statement at `centerOnlyElement`. -/
theorem poi_centroid_substitution_witness :
    (placeInfo centerOnlyElement "City Park").lat = some 3 ∧
    (placeInfo centerOnlyElement "City Park").lon = some 4 :=
  (poi_centroid_substitution.1 centerOnlyElement "City Park").1 rfl (3, 4) rfl

/-! ### The orchestrator (orchestrator.py lines 185-295)

External calls are modeled by an environment of `Except`-valued responses:
the `error` branch stands for any tansport failure or raised exception at
that call site, the `ok` branch for an already-parsed payload. `processQuery`
also returns the list of client operations it invoked, in order. -/

/-- A weather payload: the JSON object as an association list (string-valued
leaves suffice for the claims; an empty list models an empty JSON object,
which is falsy in Python). -/
abbrev WeatherJson := List (String × String)

/-- The client `GeocodingAgent.get_coordinates` including its catch-and-degrade wrapper
(`core_agents.py` lines 68-76): any failure maps to `None`. -/
def geocodeClient : Except String (List Candidate) → Option GeoResult
  | .ok data => getCoordinates data
  | .error _ => none

/-- The client `WeatherAgent.get_weather` (`core_agents.py` lines 86-116): the parsed
payload on success, `None` on any failure. -/
def weatherClient : Except String WeatherJson → Option WeatherJson
  | .ok d => some d
  | .error _ => none

/-- The fixed placeholder returned by `get_travel_tips` on any failure. -/
def tipsPlaceholder : String := "Unable to generate travel tips at this time."

/-- The fixed placeholder returned by `get_itinerary` on any failure. -/
def itineraryPlaceholder : String := "Unable to generate itinerary at this time."

/-- The client `TravelInsightsAgent.get_travel_tips` (`core_agents.py` lines 250-285):
the LLM reply on success, the fixed placeholder on any failure. -/
def getTravelTips : Except String String → String
  | .ok s => s
  | .error _ => tipsPlaceholder

/-- The client `TravelInsightsAgent.get_itinerary` (`core_agents.py` lines 287-318). -/
def getItinerary : Except String String → String
  | .ok s => s
  | .error _ => itineraryPlaceholder

/-- The method `TourismOrchestrator._get_spelling_suggestions` (orchestrator.py lines
26-55): on success `content.strip().strip(quote).strip(apostrophe)`, on any
failure the place name itself. -/
def getSpellingSuggestions (resp : Except String String) (place_name : String) : String :=
  match resp with
  | .ok content => pyStripChar (Char.ofNat 39) (pyStripChar (Char.ofNat 34) (pyStrip content))
  | .error _ => place_name

/-- The fixed fallback sentence of `_generate_summary` (orchestrator.py line
490). -/
def fallbackSummary (place : String) : String :=
  "I found comprehensive information about " ++ place ++
    " including current weather conditions, locations to explore, and travel recommendations. Check the detailed tabs below for complete information!"

/-- The method `_generate_summary` abstracted over its LLM call: the stripped reply on
success, the fixed fallback on any failure. -/
def generateSummary (resp : Except String String) (place : String) : String :=
  match resp with
  | .ok s => pyStrip s
  | .error _ => fallbackSummary place

/-- The fixed help message returned for greetings and invalid queries
(orchestrator.py line 208). -/
def helpMessage : String :=
  "ðŸ‘‹ Hello! I'm your AI travel assistant. Please tell me which city or place you'd like to visit, and I can help you with:\n\nâ€¢ Current weather and 7-day forecasts\nâ€¢ Top tourist attractions\nâ€¢ Personalized itineraries\nâ€¢ Travel tips and recommendations\n\nFor example, try:\n- 'I'm going to Paris'\n- 'What's the weather in Tokyo?'\n- 'Plan a 3-day trip to Rome'"

/-- The failure message assembled at orchestrator.py lines 220-224:
a suggestion that is truthy and differs from the searched name yields the
"Did you mean" clause, otherwise the generic spelling guidance. -/
def notFoundMessage (place_name suggestion : String) : String :=
  let base := "I couldn't find a place called '" ++ place_name ++ "'."
  if suggestion != "" && suggestion != place_name then
    base ++ "\n\nðŸ’¡ Did you mean **" ++ suggestion ++ "**? Try searching for that instead!"
  else
    base ++ "\n\nPlease check the spelling or try a different location.\n\nTip: Try using well-known city names like 'London', 'New York', or 'Tokyo'."

/-- The rejection condition of orchestrator.py line 203:
`'greeting' in intents or not place_name or not is_valid`, with the `.get`
defaults of lines 192-194. -/
def rejectedQuery (a : QueryAnalysis) : Bool :=
  (a.intents.getD ["weather", "places"]).contains "greeting" ||
    !truthyStr a.place || !(a.is_valid.getD true)

/-- The per-category data mapping of the result bundle; an absent key is
`none`. -/
structure ResultData where
  weather : Option WeatherJson := none
  places : Option (List Place) := none
  tips : Option String := none
  itinerary : Option String := none
deriving DecidableEq

/-- The result bundle of `process_query`: the greeting rejection dict, the
place-not-found dict, or the success dict. -/
inductive ProcessResult where
  | rejected (message : String)
  | notFound (message : String)
  | ok (place display_name : String) (lat lon : Int) (intents : List String)
      (data : ResultData) (summary : String)
deriving DecidableEq

/-- The `success` field of the returned dict. -/
def ProcessResult.successFlag : ProcessResult → Bool
  | .rejected _ => false
  | .notFound _ => false
  | .ok _ _ _ _ _ _ _ => true

/-- The `is_greeting` field (absent, hence falsy, on the success dict). -/
def ProcessResult.isGreetingFlag : ProcessResult → Bool
  | .rejected _ => true
  | .notFound _ => false
  | .ok _ _ _ _ _ _ _ => false

/-- The `message` field (absent on the success dict). -/
def ProcessResult.messageText : ProcessResult → String
  | .rejected m => m
  | .notFound m => m
  | .ok _ _ _ _ _ _ _ => ""

/-- The `data` mapping (empty on the failure dicts). -/
def ProcessResult.dataOf : ProcessResult → ResultData
  | .rejected _ => {}
  | .notFound _ => {}
  | .ok _ _ _ _ _ d _ => d

/-- The environment of external responses one query consumes. -/
structure Env where
  analysis : QueryAnalysis
  geoResp : Except String (List Candidate)
  weatherResp : Except String WeatherJson
  placesResp : Except String (List OsmElement)
  spellResp : Except String String
  tipsResp : Except String String
  itinResp : Except String String
  summaryResp : Except String String

/-- The read `intents = query_analysis.get('intents', ['weather', 'places'])`. -/
def intentsOf (a : QueryAnalysis) : List String :=
  a.intents.getD ["weather", "places"]

/-- Python truthiness of the stored weather value. -/
def optTruthyW : Option WeatherJson → Bool
  | some d => !d.isEmpty
  | none => false

/-- Python truthiness of the stored places value. -/
def optTruthyP : Option (List Place) → Bool
  | some l => !l.isEmpty
  | none => false

/-- orchestrator.py lines 246-251: fetch weather when intents include
weather or general; store the payload only when it is truthy. -/
def weatherEntry (intents : List String) (resp : Except String WeatherJson) :
    Option WeatherJson :=
  if intents.contains "weather" || intents.contains "general" then
    match weatherClient resp with
    | some d => if d.isEmpty then none else some d
    | none => none
  else none

/-- orchestrator.py lines 253-263: fetch places when intents include places,
general or itinerary; store the list only when it is non-empty. -/
def placesEntry (intents : List String) (resp : Except String (List OsmElement))
    (maxPlaces : Nat) : Option (List Place) :=
  if intents.contains "places" || intents.contains "general" ||
      intents.contains "itinerary" then
    (let ps := getTouristPlaces resp maxPlaces
     if ps.isEmpty then none else some ps)
  else none

/-- orchestrator.py lines 265-273: tips need the tips intent and truthy
weather and places entries. -/
def tipsEntry (intents : List String) (w : Option WeatherJson)
    (p : Option (List Place)) (resp : Except String String) : Option String :=
  if intents.contains "tips" && optTruthyW w && optTruthyP p then
    some (getTravelTips resp)
  else none

/-- orchestrator.py lines 275-283: the itinerary needs the itinerary intent
and a truthy places entry. -/
def itineraryEntry (intents : List String) (p : Option (List Place))
    (resp : Except String String) : Option String :=
  if intents.contains "itinerary" && optTruthyP p then
    some (getItinerary resp)
  else none

/-- The ordered list of client operations the success path invokes. -/
def traceOf (intents : List String) (w : Option WeatherJson)
    (p : Option (List Place)) : List String :=
  ["get_coordinates"] ++
  (if intents.contains "weather" || intents.contains "general" then
    ["get_weather"] else []) ++
  (if intents.contains "places" || intents.contains "general" ||
      intents.contains "itinerary" then ["get_tourist_places"] else []) ++
  (if intents.contains "tips" && optTruthyW w && optTruthyP p then
    ["get_travel_tips"] else []) ++
  (if intents.contains "itinerary" && optTruthyP p then
    ["get_itinerary"] else []) ++
  ["generate_summary"]

/-- The method `TourismOrchestrator.process_query` (orchestrator.py lines 185-295),
returning the result bundle and the trace of client operations invoked. The
`searchRadius` argument only shapes the places HTTP query and does not affect
the processing of an already-given response; the trip length `days` only
shapes the itinerary LLM prompt. -/
def processQuery (env : Env) (_searchRadius maxPlaces : Nat) :
    ProcessResult × List String :=
  let a := env.analysis
  if rejectedQuery a then
    (.rejected helpMessage, [])
  else
    let pname := a.place.getD ""
    match geocodeClient env.geoResp with
    | none =>
      let suggestion := getSpellingSuggestions env.spellResp pname
      (.notFound (notFoundMessage pname suggestion),
       ["get_coordinates", "get_spelling_suggestions"])
    | some geo =>
      let intents := intentsOf a
      let weatherData := weatherEntry intents env.weatherResp
      let placesData := placesEntry intents env.placesResp maxPlaces
      let tipsData := tipsEntry intents weatherData placesData env.tipsResp
      let itinData := itineraryEntry intents placesData env.itinResp
      let summary := generateSummary env.summaryResp pname
      (.ok pname geo.display_name geo.lat geo.lon intents
         { weather := weatherData, places := placesData,
           tips := tipsData, itinerary := itinData } summary,
       traceOf intents weatherData placesData)

/-! ### Theorems for claims C9 and C10 -/

/-- C9: the fallback classifier marks a query as greeting exactly when the
lowercased stripped input is in the greeting list; a greeting yields
`place = None`, `intents = ["greeting"]`, `is_valid_query = false`; a
non-greeting yields `intents = ["weather", "places"]`, `days = 1`, the place
produced by `extract_place_name` (regex patterns, else joined capitalized
non-stop-words, else the raw input), and `is_valid_query` true exactly when
that place is non-empty. -/
lemma fallbackUnderstand_eq (input : String) :
    fallbackUnderstand input =
      if greetingWords.contains (pyStrip (pyLower input)) then
        { place := none, intents := some ["greeting"], days := some 1,
          is_valid := some false }
      else
        { place := some (extract_place_name input),
          intents := some ["weather", "places"], days := some 1,
          is_valid := some (extract_place_name input != "") } := by
  by_cases hm : pyStrip (pyLower input) ∈ greetingWords
  · simp [fallbackUnderstand, hm]
  · simp [fallbackUnderstand, hm]

theorem fallback_intent_classification (input : String) :
    ((fallbackUnderstand input).intents = some ["greeting"] ↔
      pyStrip (pyLower input) ∈ greetingWords) ∧
    (pyStrip (pyLower input) ∈ greetingWords →
      fallbackUnderstand input =
        { place := none, intents := some ["greeting"], days := some 1,
          is_valid := some false }) ∧
    (pyStrip (pyLower input) ∉ greetingWords →
      fallbackUnderstand input =
        { place := some (extract_place_name input),
          intents := some ["weather", "places"], days := some 1,
          is_valid := some (extract_place_name input != "") }) ∧
    extract_place_name input =
      (match tryPatterns patternList input with
       | some place => place
       | none =>
         if !(capitalizedWords input).isEmpty then joinSpace (capitalizedWords input)
         else input) := by
  have h1 := fallbackUnderstand_eq input
  refine ⟨?_, ?_, ?_, rfl⟩
  · by_cases hg : greetingWords.contains (pyStrip (pyLower input)) = true
    · rw [h1, if_pos hg]
      exact ⟨fun _ => List.elem_iff.mp hg, fun _ => rfl⟩
    · rw [h1, if_neg hg]
      constructor
      · intro habs
        simp at habs
      · intro hm
        exact absurd (List.elem_iff.mpr hm) hg
  · intro h
    rw [h1, if_pos (List.elem_iff.mpr h)]
  · intro h
    rw [h1, if_neg (fun hc => h (List.elem_iff.mp hc))]

/-- Witness for C9 at the concrete greeting input "hi" and the concrete
non-greeting input "trip to bengalururu". -/
theorem fallback_intent_classification_witness :
    fallbackUnderstand "hi" =
      { place := none, intents := some ["greeting"], days := some 1,
        is_valid := some false } ∧
    fallbackUnderstand "trip to bengalururu" =
      { place := some (extract_place_name "trip to bengalururu"),
        intents := some ["weather", "places"], days := some 1,
        is_valid := some (extract_place_name "trip to bengalururu" != "") } :=
  ⟨(fallback_intent_classification "hi").2.1 (by decide),
   (fallback_intent_classification "trip to bengalururu").2.2.1 (by decide)⟩

/-- C10: `extract_place_name` is total: when no regex pattern matches and no
capitalized non-stop-word token exists, it returns the raw input unchanged;
hence in the fallback path such a non-empty non-greeting input becomes a
valid query whose place name is the whole query text. -/
theorem extract_place_fallthrough (input : String)
    (h1 : tryPatterns patternList input = none)
    (h2 : capitalizedWords input = []) :
    extract_place_name input = input ∧
    (input ≠ "" → pyStrip (pyLower input) ∉ greetingWords →
      fallbackUnderstand input =
        { place := some input, intents := some ["weather", "places"],
          days := some 1, is_valid := some true }) := by
  have hext : extract_place_name input = input := by
    rw [extract_place_name, h1, h2]
    rfl
  refine ⟨hext, ?_⟩
  intro hne hg
  rw [fallbackUnderstand_eq, if_neg (fun hc => hg (List.elem_iff.mp hc)), hext]
  have hbne : (input != "") = true := by simp [hne]
  rw [hbne]

/-- Witness for C10 at the concrete input "zzz qqq": no pattern matches, no
capitalized token exists, and the whole text becomes the place name. -/
theorem extract_place_fallthrough_witness :
    extract_place_name "zzz qqq" = "zzz qqq" ∧
    ("zzz qqq" ≠ "" → pyStrip (pyLower "zzz qqq") ∉ greetingWords →
      fallbackUnderstand "zzz qqq" =
        { place := some "zzz qqq", intents := some ["weather", "places"],
          days := some 1, is_valid := some true }) :=
  extract_place_fallthrough "zzz qqq" (by decide) (by decide)

/-! ### Theorems for claims C3 and C7 -/

/-- C3: whenever the intents contain "greeting", or no place name was
resolved (absent or empty), or the analysis marks itself invalid,
`process_query` returns the fixed help-message bundle with `success = false`
and `is_greeting = true`, independently of the `search_radius` and
`max_places` parameters, and invokes no external client (empty trace). -/
theorem greeting_rejection (env : Env) (r1 m1 r2 m2 : Nat)
    (h : rejectedQuery env.analysis = true) :
    processQuery env r1 m1 = (ProcessResult.rejected helpMessage, []) ∧
    processQuery env r1 m1 = processQuery env r2 m2 ∧
    (processQuery env r1 m1).1.successFlag = false ∧
    (processQuery env r1 m1).1.isGreetingFlag = true ∧
    (processQuery env r1 m1).1.messageText = helpMessage := by
  have heq : ∀ r m : Nat,
      processQuery env r m = (ProcessResult.rejected helpMessage, []) := by
    intro r m
    simp [processQuery, h]
  refine ⟨heq r1 m1, (heq r1 m1).trans (heq r2 m2).symm, ?_, ?_, ?_⟩
  · rw [heq r1 m1]; rfl
  · rw [heq r1 m1]; rfl
  · rw [heq r1 m1]; rfl

/-- A concrete greeting environment for the C3 witness. -/
def greetingEnv : Env :=
  { analysis := { place := none, intents := some ["greeting"], days := some 1,
                  is_valid := some false },
    geoResp := .error "net", weatherResp := .error "net",
    placesResp := .error "net", spellResp := .error "net",
    tipsResp := .error "net", itinResp := .error "net",
    summaryResp := .error "net" }

/-- Witness for C3 at `greetingEnv` and two different parameter pairs. -/
theorem greeting_rejection_witness :
    processQuery greetingEnv 30000 8 = (ProcessResult.rejected helpMessage, []) ∧
    processQuery greetingEnv 30000 8 = processQuery greetingEnv 5000 3 :=
  ⟨(greeting_rejection greetingEnv 30000 8 5000 3 (by decide)).1,
   (greeting_rejection greetingEnv 30000 8 5000 3 (by decide)).2.1⟩

/-- C7: no client operation propagates an exception: the error branch of
every client is mapped to its degraded value — `None` for geocoding and
weather, the empty list for places, the fixed placeholder strings for tips
and itinerary. (Totality on the success branch is inherent: every client is
a total function of its response.) -/
theorem clients_degrade_on_error (e : String) :
    geocodeClient (Except.error e) = none ∧
    weatherClient (Except.error e) = none ∧
    (∀ limit, getTouristPlaces (Except.error e) limit = []) ∧
    getTravelTips (Except.error e) = tipsPlaceholder ∧
    getItinerary (Except.error e) = itineraryPlaceholder ∧
    (∀ place_name, getSpellingSuggestions (Except.error e) place_name = place_name) :=
  ⟨rfl, rfl, fun _ => rfl, rfl, rfl, fun _ => rfl⟩

/-! ### Component lemmas for claim C2 -/

lemma weatherEntry_isSome (intents : List String) (resp : Except String WeatherJson) :
    (weatherEntry intents resp).isSome = true ↔
      (("weather" ∈ intents ∨ "general" ∈ intents) ∧
        ∃ d, resp = Except.ok d ∧ d ≠ []) := by
  rw [weatherEntry]
  by_cases hc : (intents.contains "weather" || intents.contains "general") = true
  · rw [if_pos hc]
    have hmem : "weather" ∈ intents ∨ "general" ∈ intents := by
      rw [Bool.or_eq_true] at hc
      exact hc.imp List.elem_iff.mp List.elem_iff.mp
    cases resp with
    | error e => simp [weatherClient, hmem]
    | ok d =>
      simp only [weatherClient]
      by_cases hd : d.isEmpty = true
      · rw [if_pos hd]
        have hdnil : d = [] := List.isEmpty_iff.mp hd
        simp [hmem, hdnil]
      · rw [if_neg hd]
        have hne : d ≠ [] := fun hnil => hd (by simp [hnil])
        simp [hmem, hne]
  · rw [if_neg hc]
    have hnm : ¬("weather" ∈ intents ∨ "general" ∈ intents) := by
      intro hm
      apply hc
      rw [Bool.or_eq_true]
      exact hm.imp List.elem_iff.mpr List.elem_iff.mpr
    simp [hnm]

lemma placesEntry_isSome (intents : List String)
    (resp : Except String (List OsmElement)) (m : Nat) :
    (placesEntry intents resp m).isSome = true ↔
      (("places" ∈ intents ∨ "general" ∈ intents ∨ "itinerary" ∈ intents) ∧
        getTouristPlaces resp m ≠ []) := by
  rw [placesEntry]
  by_cases hc : (intents.contains "places" || intents.contains "general" ||
      intents.contains "itinerary") = true
  · rw [if_pos hc]
    have hmem : "places" ∈ intents ∨ "general" ∈ intents ∨ "itinerary" ∈ intents := by
      rw [Bool.or_eq_true, Bool.or_eq_true] at hc
      rcases hc with (h | h) | h
      · exact Or.inl (List.elem_iff.mp h)
      · exact Or.inr (Or.inl (List.elem_iff.mp h))
      · exact Or.inr (Or.inr (List.elem_iff.mp h))
    by_cases hp : (getTouristPlaces resp m).isEmpty = true
    · rw [if_pos hp]
      have hnil := List.isEmpty_iff.mp hp
      simp [hmem, hnil]
    · rw [if_neg hp]
      have hne : getTouristPlaces resp m ≠ [] := fun hnil => hp (by simp [hnil])
      simp [hmem, hne]
  · rw [if_neg hc]
    have hnm : ¬("places" ∈ intents ∨ "general" ∈ intents ∨ "itinerary" ∈ intents) := by
      intro hm
      apply hc
      rw [Bool.or_eq_true, Bool.or_eq_true]
      rcases hm with h | h | h
      · exact Or.inl (Or.inl (List.elem_iff.mpr h))
      · exact Or.inl (Or.inr (List.elem_iff.mpr h))
      · exact Or.inr (List.elem_iff.mpr h)
    simp [hnm]

lemma weatherEntry_truthy (intents : List String) (resp : Except String WeatherJson) :
    optTruthyW (weatherEntry intents resp) = (weatherEntry intents resp).isSome := by
  cases hw : weatherEntry intents resp with
  | none => simp [optTruthyW]
  | some d =>
    have hd : ¬ d.isEmpty = true := by
      rw [weatherEntry] at hw
      by_cases hc : (intents.contains "weather" || intents.contains "general") = true
      · rw [if_pos hc] at hw
        cases resp with
        | error e => simp [weatherClient] at hw
        | ok d2 =>
          simp only [weatherClient] at hw
          by_cases hd2 : d2.isEmpty = true
          · rw [if_pos hd2] at hw
            simp at hw
          · rw [if_neg hd2] at hw
            cases hw
            exact hd2
      · rw [if_neg hc] at hw
        simp at hw
    simp [optTruthyW, hd]

lemma placesEntry_truthy (intents : List String)
    (resp : Except String (List OsmElement)) (m : Nat) :
    optTruthyP (placesEntry intents resp m) = (placesEntry intents resp m).isSome := by
  cases hw : placesEntry intents resp m with
  | none => simp [optTruthyP]
  | some l =>
    have hd : ¬ l.isEmpty = true := by
      rw [placesEntry] at hw
      by_cases hc : (intents.contains "places" || intents.contains "general" ||
          intents.contains "itinerary") = true
      · rw [if_pos hc] at hw
        by_cases hp : (getTouristPlaces resp m).isEmpty = true
        · rw [if_pos hp] at hw
          simp at hw
        · rw [if_neg hp] at hw
          cases hw
          exact hp
      · rw [if_neg hc] at hw
        simp at hw
    simp [optTruthyP, hd]

lemma tipsEntry_isSome (intents : List String) (w : Option WeatherJson)
    (p : Option (List Place)) (resp : Except String String) :
    (tipsEntry intents w p resp).isSome = true ↔
      ("tips" ∈ intents ∧ optTruthyW w = true ∧ optTruthyP p = true) := by
  rw [tipsEntry]
  by_cases hc : (intents.contains "tips" && optTruthyW w && optTruthyP p) = true
  · rw [if_pos hc]
    rw [Bool.and_eq_true, Bool.and_eq_true] at hc
    simp only [Option.isSome_some, true_iff]
    exact ⟨List.elem_iff.mp hc.1.1, hc.1.2, hc.2⟩
  · rw [if_neg hc]
    simp only [Option.isSome_none]
    constructor
    · intro habs
      simp at habs
    · rintro ⟨h1, h2, h3⟩
      exact absurd (by
        rw [Bool.and_eq_true, Bool.and_eq_true]
        exact ⟨⟨List.elem_iff.mpr h1, h2⟩, h3⟩) hc

lemma itineraryEntry_isSome (intents : List String) (p : Option (List Place))
    (resp : Except String String) :
    (itineraryEntry intents p resp).isSome = true ↔
      ("itinerary" ∈ intents ∧ optTruthyP p = true) := by
  rw [itineraryEntry]
  by_cases hc : (intents.contains "itinerary" && optTruthyP p) = true
  · rw [if_pos hc]
    rw [Bool.and_eq_true] at hc
    simp only [Option.isSome_some, true_iff]
    exact ⟨List.elem_iff.mp hc.1, hc.2⟩
  · rw [if_neg hc]
    simp only [Option.isSome_none]
    constructor
    · intro habs
      simp at habs
    · rintro ⟨h1, h2⟩
      exact absurd (by
        rw [Bool.and_eq_true]
        exact ⟨List.elem_iff.mpr h1, h2⟩) hc

lemma traceOf_weather_mem (intents : List String) (w : Option WeatherJson)
    (p : Option (List Place)) :
    "get_weather" ∈ traceOf intents w p ↔
      ("weather" ∈ intents ∨ "general" ∈ intents) := by
  have hbr : (intents.contains "weather" || intents.contains "general") = true ↔
      ("weather" ∈ intents ∨ "general" ∈ intents) := by
    rw [Bool.or_eq_true]
    exact or_congr List.elem_iff List.elem_iff
  rw [traceOf, ← hbr]
  by_cases h1 : (intents.contains "weather" || intents.contains "general") = true <;>
    by_cases h2 : (intents.contains "places" || intents.contains "general" ||
      intents.contains "itinerary") = true <;>
    by_cases h3 : (intents.contains "tips" && optTruthyW w && optTruthyP p) = true <;>
    by_cases h4 : (intents.contains "itinerary" && optTruthyP p) = true <;>
    simp [h1, h2, h3, h4]

lemma traceOf_places_mem (intents : List String) (w : Option WeatherJson)
    (p : Option (List Place)) :
    "get_tourist_places" ∈ traceOf intents w p ↔
      ("places" ∈ intents ∨ "general" ∈ intents ∨ "itinerary" ∈ intents) := by
  have hbr : (intents.contains "places" || intents.contains "general" ||
      intents.contains "itinerary") = true ↔
      ("places" ∈ intents ∨ "general" ∈ intents ∨ "itinerary" ∈ intents) := by
    rw [Bool.or_eq_true, Bool.or_eq_true, or_assoc]
    exact or_congr List.elem_iff (or_congr List.elem_iff List.elem_iff)
  rw [traceOf, ← hbr]
  by_cases h1 : (intents.contains "weather" || intents.contains "general") = true <;>
    by_cases h2 : (intents.contains "places" || intents.contains "general" ||
      intents.contains "itinerary") = true <;>
    by_cases h3 : (intents.contains "tips" && optTruthyW w && optTruthyP p) = true <;>
    by_cases h4 : (intents.contains "itinerary" && optTruthyP p) = true <;>
    simp [h1, h2, h3, h4]

/-! ### Theorem for claim C2 -/

/-- C2: for a non-rejected, successfully geocoded query, weather is fetched
exactly when intents include weather or general; places exactly when intents
include places, general or itinerary; the weather/places data keys are
present exactly when their fetch succeeded with a truthy payload; tips are
generated exactly when the tips intent holds and both the weather and places
entries are present; the itinerary exactly when the itinerary intent holds
and the places entry is present; and the query still succeeds — a failed
fetch only omits its key. -/
theorem intent_driven_aggregation (env : Env) (r m : Nat) (geo : GeoResult)
    (hrej : rejectedQuery env.analysis = false)
    (hgeo : geocodeClient env.geoResp = some geo) :
    ("get_weather" ∈ (processQuery env r m).2 ↔
      ("weather" ∈ intentsOf env.analysis ∨ "general" ∈ intentsOf env.analysis)) ∧
    ("get_tourist_places" ∈ (processQuery env r m).2 ↔
      ("places" ∈ intentsOf env.analysis ∨ "general" ∈ intentsOf env.analysis ∨
        "itinerary" ∈ intentsOf env.analysis)) ∧
    (((processQuery env r m).1.dataOf.weather).isSome = true ↔
      (("weather" ∈ intentsOf env.analysis ∨ "general" ∈ intentsOf env.analysis) ∧
        ∃ d, env.weatherResp = Except.ok d ∧ d ≠ [])) ∧
    (((processQuery env r m).1.dataOf.places).isSome = true ↔
      (("places" ∈ intentsOf env.analysis ∨ "general" ∈ intentsOf env.analysis ∨
          "itinerary" ∈ intentsOf env.analysis) ∧
        getTouristPlaces env.placesResp m ≠ [])) ∧
    (((processQuery env r m).1.dataOf.tips).isSome = true ↔
      ("tips" ∈ intentsOf env.analysis ∧
        ((processQuery env r m).1.dataOf.weather).isSome = true ∧
        ((processQuery env r m).1.dataOf.places).isSome = true)) ∧
    (((processQuery env r m).1.dataOf.itinerary).isSome = true ↔
      ("itinerary" ∈ intentsOf env.analysis ∧
        ((processQuery env r m).1.dataOf.places).isSome = true)) ∧
    (processQuery env r m).1.successFlag = true := by
  have hpq : processQuery env r m =
      (ProcessResult.ok (env.analysis.place.getD "") geo.display_name geo.lat geo.lon
        (intentsOf env.analysis)
        { weather := weatherEntry (intentsOf env.analysis) env.weatherResp,
          places := placesEntry (intentsOf env.analysis) env.placesResp m,
          tips := tipsEntry (intentsOf env.analysis)
            (weatherEntry (intentsOf env.analysis) env.weatherResp)
            (placesEntry (intentsOf env.analysis) env.placesResp m) env.tipsResp,
          itinerary := itineraryEntry (intentsOf env.analysis)
            (placesEntry (intentsOf env.analysis) env.placesResp m) env.itinResp }
        (generateSummary env.summaryResp (env.analysis.place.getD "")),
       traceOf (intentsOf env.analysis)
         (weatherEntry (intentsOf env.analysis) env.weatherResp)
         (placesEntry (intentsOf env.analysis) env.placesResp m)) := by
    simp [processQuery, hrej, hgeo]
  rw [hpq]
  refine ⟨traceOf_weather_mem _ _ _, traceOf_places_mem _ _ _,
    weatherEntry_isSome _ _, placesEntry_isSome _ _ _, ?_, ?_, rfl⟩
  · show (tipsEntry (intentsOf env.analysis)
        (weatherEntry (intentsOf env.analysis) env.weatherResp)
        (placesEntry (intentsOf env.analysis) env.placesResp m)
        env.tipsResp).isSome = true ↔
      ("tips" ∈ intentsOf env.analysis ∧
        (weatherEntry (intentsOf env.analysis) env.weatherResp).isSome = true ∧
        (placesEntry (intentsOf env.analysis) env.placesResp m).isSome = true)
    rw [tipsEntry_isSome, weatherEntry_truthy, placesEntry_truthy]
  · show (itineraryEntry (intentsOf env.analysis)
        (placesEntry (intentsOf env.analysis) env.placesResp m)
        env.itinResp).isSome = true ↔
      ("itinerary" ∈ intentsOf env.analysis ∧
        (placesEntry (intentsOf env.analysis) env.placesResp m).isSome = true)
    rw [itineraryEntry_isSome, placesEntry_truthy]

/-- A concrete environment for the C2 witness: weather/places/tips intents,
successful geocoding, truthy weather, one named place. -/
def aggregationEnv : Env :=
  { analysis := { place := some "Paris",
                  intents := some ["weather", "places", "tips"],
                  days := some 1, is_valid := some true },
    geoResp := .ok [{ lat := 48, lon := 2, display_name := "Paris, France",
                      itemType := some "city" }],
    weatherResp := .ok [("current", "data")],
    placesResp := .ok [{ tags := { name := some "Louvre" } }],
    spellResp := .error "unused", tipsResp := .ok "Carry a compact umbrella.",
    itinResp := .error "unused", summaryResp := .ok "Enjoy Paris." }

/-- Witness for C2 at `aggregationEnv`. -/
theorem intent_driven_aggregation_witness :
    ("get_weather" ∈ (processQuery aggregationEnv 30000 8).2 ↔
      ("weather" ∈ intentsOf aggregationEnv.analysis ∨
        "general" ∈ intentsOf aggregationEnv.analysis)) ∧
    (((processQuery aggregationEnv 30000 8).1.dataOf.tips).isSome = true ↔
      ("tips" ∈ intentsOf aggregationEnv.analysis ∧
        ((processQuery aggregationEnv 30000 8).1.dataOf.weather).isSome = true ∧
        ((processQuery aggregationEnv 30000 8).1.dataOf.places).isSome = true)) :=
  ⟨(intent_driven_aggregation aggregationEnv 30000 8
      { lat := 48, lon := 2, display_name := "Paris, France" }
      (by decide) (by decide)).1,
   (intent_driven_aggregation aggregationEnv 30000 8
      { lat := 48, lon := 2, display_name := "Paris, France" }
      (by decide) (by decide)).2.2.2.2.1⟩

/-! ### Theorem for claim C6 -/

/-- C6: when a valid query's place cannot be geocoded, `process_query`
returns a failure bundle (success false, is_greeting false) whose message
names the unfound place; if the spelling suggestion is non-empty and differs
from the searched name the message carries the "Did you mean" clause with
that suggestion, and if the suggestion equals the input (which includes a
failed suggestion call) it carries the generic spelling guidance instead. -/
theorem geocode_not_found_suggestion (env : Env) (r m : Nat)
    (hrej : rejectedQuery env.analysis = false)
    (hgeo : geocodeClient env.geoResp = none) :
    processQuery env r m =
      (ProcessResult.notFound
        (notFoundMessage (env.analysis.place.getD "")
          (getSpellingSuggestions env.spellResp (env.analysis.place.getD ""))),
       ["get_coordinates", "get_spelling_suggestions"]) ∧
    (processQuery env r m).1.successFlag = false ∧
    (processQuery env r m).1.isGreetingFlag = false ∧
    (∃ tail, (processQuery env r m).1.messageText =
      "I couldn't find a place called '" ++ env.analysis.place.getD "" ++ "'." ++ tail) ∧
    (getSpellingSuggestions env.spellResp (env.analysis.place.getD "") ≠ "" →
      getSpellingSuggestions env.spellResp (env.analysis.place.getD "") ≠
        env.analysis.place.getD "" →
      ∃ pre post, (processQuery env r m).1.messageText =
        pre ++ ("Did you mean **" ++
          getSpellingSuggestions env.spellResp (env.analysis.place.getD "") ++ "**") ++ post) ∧
    (getSpellingSuggestions env.spellResp (env.analysis.place.getD "") =
        env.analysis.place.getD "" →
      (processQuery env r m).1.messageText =
        "I couldn't find a place called '" ++ env.analysis.place.getD "" ++ "'." ++
          "\n\nPlease check the spelling or try a different location.\n\nTip: Try using well-known city names like 'London', 'New York', or 'Tokyo'.") := by
  have hpq : processQuery env r m =
      (ProcessResult.notFound
        (notFoundMessage (env.analysis.place.getD "")
          (getSpellingSuggestions env.spellResp (env.analysis.place.getD ""))),
       ["get_coordinates", "get_spelling_suggestions"]) := by
    simp [processQuery, hrej, hgeo]
  have hmsg : (processQuery env r m).1.messageText =
      notFoundMessage (env.analysis.place.getD "")
        (getSpellingSuggestions env.spellResp (env.analysis.place.getD "")) := by
    rw [hpq]
    rfl
  refine ⟨hpq, by rw [hpq]; rfl, by rw [hpq]; rfl, ?_, ?_, ?_⟩
  · rw [hmsg, notFoundMessage]
    by_cases hcond : (getSpellingSuggestions env.spellResp (env.analysis.place.getD "") != "" &&
        getSpellingSuggestions env.spellResp (env.analysis.place.getD "") !=
          env.analysis.place.getD "") = true
    · rw [if_pos hcond]
      exact ⟨"\n\nðŸ’¡ Did you mean **" ++
          (getSpellingSuggestions env.spellResp (env.analysis.place.getD "") ++
            "**? Try searching for that instead!"),
        by simp only [String.append_assoc]⟩
    · rw [if_neg hcond]
      exact ⟨"\n\nPlease check the spelling or try a different location.\n\nTip: Try using well-known city names like 'London', 'New York', or 'Tokyo'.",
        by simp only [String.append_assoc]⟩
  · intro hne hnp
    have hcond : (getSpellingSuggestions env.spellResp (env.analysis.place.getD "") != "" &&
        getSpellingSuggestions env.spellResp (env.analysis.place.getD "") !=
          env.analysis.place.getD "") = true := by
      simp [hne, hnp]
    rw [hmsg, notFoundMessage]
    rw [if_pos hcond]
    refine ⟨("I couldn't find a place called '" ++ env.analysis.place.getD "" ++ "'.") ++
      "\n\nðŸ’¡ ", "? Try searching for that instead!", ?_⟩
    have e1 : ("\n\nðŸ’¡ " : String) ++ "Did you mean **" = "\n\nðŸ’¡ Did you mean **" := rfl
    have e2 : ("**" : String) ++ "? Try searching for that instead!" =
        "**? Try searching for that instead!" := rfl
    rw [← e1, ← e2]
    simp only [String.append_assoc]
  · intro heq
    rw [hmsg, notFoundMessage, heq]
    simp

/-- A concrete environment for the C6 witness: a valid query whose literal
place name "parris" geocodes to an empty candidate array, with the LLM
suggesting "Paris". -/
def notFoundEnv : Env :=
  { analysis := { place := some "parris", intents := some ["weather"],
                  days := some 1, is_valid := some true },
    geoResp := .ok [], weatherResp := .error "unused", placesResp := .error "unused",
    spellResp := .ok "Paris", tipsResp := .error "unused", itinResp := .error "unused",
    summaryResp := .error "unused" }

/-- Witness for C6 at `notFoundEnv`: the message carries the "Did you mean"
clause with the suggested name. -/
theorem geocode_not_found_suggestion_witness :
    ∃ pre post, (processQuery notFoundEnv 30000 8).1.messageText =
      pre ++ ("Did you mean **" ++
        getSpellingSuggestions notFoundEnv.spellResp
          (notFoundEnv.analysis.place.getD "") ++ "**") ++ post :=
  (geocode_not_found_suggestion notFoundEnv 30000 8 (by decide)
    (by decide)).2.2.2.2.1 (by decide) (by decide)

end Tourism
